import Mathlib

/-!
# Verification of the sales-dashboard query/formatting layer

Shallow embedding of `app.py` (the Streamlit e-commerce dashboard) and of the
schema it queries.  Python/pandas/SQLite behaviour is modelled as follows:

* SQL numeric values are rationals (`ℚ`); SQL `NULL` is `Option.none`.
* A pandas `DataFrame` produced by one of the dashboard's queries is the list
  of its rows; each query gets a row type matching its `SELECT` list.
* `st.cache_data` is modelled as an explicit association list from the exact
  query string to the cached result, threaded through `run_query`.
* Exceptions are modelled with `Except`: a Python function that can raise
  returns `Except String α`.
* Python's `f"{x:.1f}"` / SQLite `ROUND` act on IEEE doubles; here they are
  modelled on exact rationals, with ties rounded half up (`fmtOneDec`) or
  half away from zero (`sqliteRound2`).  The `,.0f` integer rounding uses
  round half to even (`pyRound0`), as Python does on exactly representable
  ties.
-/

namespace SalesDashboard

/-! ## Formatting helpers (`format_currency`, `format_number`) -/

/-- Insert a `,` after every third character of a reversed digit string:
the grouping step of Python's `{:,}` format, working from the least
significant digit. -/
def groupRev : List Char → List Char
  | c1 :: c2 :: c3 :: c4 :: rest => c1 :: c2 :: c3 :: ',' :: groupRev (c4 :: rest)
  | cs => cs

/-- Render a natural number with thousands separators, as Python's `{:,.0f}`
does for a nonnegative integral value. -/
def groupDigits (n : ℕ) : String :=
  String.mk (groupRev (toString n).data.reverse).reverse

/-- Python's `round` / `{:,.0f}` rounding of an exact value: nearest integer,
ties to the even neighbour. -/
def pyRound0 (q : ℚ) : ℤ :=
  if q - q.floor < 1/2 then q.floor
  else if 1/2 < q - q.floor then q.floor + 1
  else if q.floor % 2 = 0 then q.floor else q.floor + 1

/-- `format_currency` from `app.py`:

```python
def format_currency(amount):
    if amount is None:
        return "₹0"
    return f"₹{amount:,.0f}"
```

`None` is `Option.none`; a numeric amount is `some q`. -/
def format_currency (amount : Option ℚ) : String :=
  match amount with
  | none => "₹0"
  | some q =>
      let n : ℤ := pyRound0 q
      "₹" ++ (if n < 0 then "-" else "") ++ groupDigits n.natAbs

/-- One-decimal rendering of `n / d` (for `d > 0`), as in Python's
`f"{n/d:.1f}"`; ties round half up (see the header note on floats). -/
def fmtOneDec (n d : ℤ) : String :=
  let t : ℤ := (20 * n + d) / (2 * d)
  toString (t / 10) ++ "." ++ toString (t % 10).natAbs

/-- `format_number` from `app.py`:

```python
def format_number(num):
    if num >= 1000000:
        return f"{num/1000000:.1f}M"
    elif num >= 1000:
        return f"{num/1000:.1f}K"
    else:
        return f"{num:.0f}"
```

There is no `None` guard: `None >= 1000000` raises `TypeError`, modelled as
`Except.error`.  The dashboard only ever passes integer counts, so the
numeric argument is `ℤ`. -/
def format_number (num : Option ℤ) : Except String String :=
  match num with
  | none => .error "TypeError: unsupported comparison between NoneType and int"
  | some n =>
      if n ≥ 1000000 then .ok (fmtOneDec n 1000000 ++ "M")
      else if n ≥ 1000 then .ok (fmtOneDec n 1000 ++ "K")
      else .ok (toString n)

/-! ## The cached query runner (`run_query` under `@st.cache_data`)

```python
@st.cache_data
def run_query(query):
    """Run SQL query and return DataFrame with caching"""
    try:
        with sqlite3.connect(DB_PATH) as conn:
            return pd.read_sql_query(query, conn)
    except Exception as e:
        st.error(f"Database error: {str(e)}")
        return pd.DataFrame()
```

`st.cache_data` memoises on the argument and stores whatever the wrapped
function *returns*; the `except` branch returns normally, so its empty
DataFrame is cached like any other result.  The model abstracts the result
type (`df`), takes the underlying execution `pd.read_sql_query` as an oracle
`exec : String → Except String df`, and threads the cache explicitly.  -/

/-- Outcome of one `run_query` call: the DataFrame handed to the caller, the
cache afterwards, whether the database was actually queried, and the
`st.error` message reported (if any). -/
structure RunOutcome (df : Type) where
  result : df
  cache : List (String × df)
  executed : Bool
  reported : Option String
deriving Repr, DecidableEq

/-- One call of the cached `run_query`. `emptyDF` stands for
`pd.DataFrame()`. -/
def run_query (execQ : String → Except String df) (emptyDF : df)
    (cache : List (String × df)) (q : String) : RunOutcome df :=
  match cache.lookup q with
  | some r => ⟨r, cache, false, none⟩
  | none =>
      match execQ q with
      | .ok r => ⟨r, (q, r) :: cache, true, none⟩
      | .error e => ⟨emptyDF, (q, emptyDF) :: cache, true, some ("Database error: " ++ e)⟩

/-- Run a batch of queries in order, threading the cache (one render cycle
issues many `run_query` calls). -/
def runAll (execQ : String → Except String df) (emptyDF : df)
    (cache : List (String × df)) : List String → List (String × df)
  | [] => cache
  | q :: qs => runAll execQ emptyDF (run_query execQ emptyDF cache q).cache qs

/-! ## The database (`database_setup.sql` schema, §6 of the design notes)

`customers(customer_id PK, name, email, country)`,
`products(product_id PK, product_name, category, price)`,
`orders(order_id PK, customer_id FK, product_id FK, quantity, order_date)`.

Dates are stored as text and compared with `date('now', '-N days')`; the
model uses day numbers (`ℤ`), so `date('now','-30 days')` is `now - 30`,
and the SQL `>=` on dates is integer `≤` of the cutoff. -/

structure Customer where
  customer_id : ℕ
  name : String
  email : String
  country : String
deriving Repr, DecidableEq

structure Product where
  product_id : ℕ
  product_name : String
  category : String
  price : ℚ
deriving Repr, DecidableEq

structure Order where
  order_id : ℕ
  customer_id : ℕ
  product_id : ℕ
  quantity : ℕ
  order_date : ℤ
deriving Repr, DecidableEq

structure DB where
  customers : List Customer
  products : List Product
  orders : List Order
deriving Repr, DecidableEq

/-! ## Date-range filter (sidebar selectbox and `date_filter` fragment)

```python
date_filter = ""
if date_range == "Last 30 Days":
    date_filter = "AND o.order_date >= date('now', '-30 days')"
elif date_range == "Last 90 Days":
    date_filter = "AND o.order_date >= date('now', '-90 days')"
elif date_range == "Last Year":
    date_filter = "AND o.order_date >= date('now', '-1 year')"
```
-/

inductive DateRange
  | allTime
  | last30Days
  | last90Days
  | lastYear
deriving Repr, DecidableEq

/-- The optional lower bound on `order_date` that the `date_filter` fragment
adds: `none` for "All Time" (empty fragment), otherwise `now` minus the
offset (a year as 365 days). -/
def dateCutoff (r : DateRange) (now : ℤ) : Option ℤ :=
  match r with
  | .allTime => none
  | .last30Days => some (now - 30)
  | .last90Days => some (now - 90)
  | .lastYear => some (now - 365)

/-- `WHERE 1=1 {date_filter}` applied to one order row. -/
def orderMatches (r : DateRange) (now : ℤ) (o : Order) : Bool :=
  match dateCutoff r now with
  | none => true
  | some c => decide (c ≤ o.order_date)

/-! ## Generic SQL pieces -/

/-- `SUM(e)` over the listed values: SQL returns `NULL` on an empty input,
the sum otherwise (all our operands are non-NULL). -/
def sqlSUM (l : List ℚ) : Option ℚ :=
  if l.isEmpty then none else some l.sum

/-- `AVG(e)` over the listed (non-NULL) values: `NULL` on empty input,
otherwise sum / count (SQLite computes this in floating point; exact here). -/
def sqlAVG (l : List ℚ) : Option ℚ :=
  if l.isEmpty then none else some (l.sum / l.length)

/-- `a * 1.0 / b` in SQLite: division by zero yields `NULL`. -/
def sqlDiv (a b : ℚ) : Option ℚ :=
  if b = 0 then none else some (a / b)

/-- Two-decimal rounding of an exact value, ties away from zero (SQLite's
`ROUND(x, 2)` on a non-NULL argument). -/
def round2 (q : ℚ) : ℚ :=
  if q < 0 then -((Rat.floor (-q * 100 + 1/2) : ℤ) : ℚ) / 100
  else ((Rat.floor (q * 100 + 1/2) : ℤ) : ℚ) / 100

/-- SQLite `ROUND(x, 2)` on a nullable argument: `ROUND(NULL, 2) = NULL`. -/
def sqliteRound2 (x : Option ℚ) : Option ℚ :=
  x.map round2

/-- `GROUP BY key`: one group per distinct key value, carrying the rows of
that group.  (Output order of groups is engine-defined; every theorem below
is order-insensitive or sorts explicitly afterwards.) -/
def sqlGroup {α κ : Type} [DecidableEq κ] (l : List α) (key : α → κ) :
    List (κ × List α) :=
  (l.map key).dedup.map fun k => (k, l.filter fun a => decide (key a = k))

/-- `COUNT(DISTINCT e)` over the listed values. -/
def countDistinct {κ : Type} [DecidableEq κ] (l : List κ) : ℕ :=
  l.dedup.length

/-! ## The joins

`FROM orders o JOIN products p ON o.product_id = p.product_id` (with the
date predicate on `o`), and the three-way join adding
`JOIN customers c ON o.customer_id = c.customer_id`. -/

/-- Order–product join rows surviving `WHERE 1=1 {date_filter}`. -/
def joinOP (db : DB) (pred : Order → Bool) : List (Order × Product) :=
  (db.orders.filter pred).flatMap fun o =>
    (db.products.filter fun p => decide (p.product_id = o.product_id)).map
      fun p => (o, p)

/-- Order–customer–product join rows surviving the date predicate. -/
def joinOCP (db : DB) (pred : Order → Bool) :
    List (Order × Customer × Product) :=
  (db.orders.filter pred).flatMap fun o =>
    (db.customers.filter fun c => decide (c.customer_id = o.customer_id)).flatMap
      fun c =>
        (db.products.filter fun p => decide (p.product_id = o.product_id)).map
          fun p => (o, c, p)

/-- `p.price * o.quantity` for an order–product row. -/
def lineValue (r : Order × Product) : ℚ :=
  r.2.price * r.1.quantity

/-- `p.price * o.quantity` for an order–customer–product row. -/
def lineValue3 (r : Order × Customer × Product) : ℚ :=
  r.2.2.price * r.1.quantity

/-! ## The aggregate queries

Each `..._df` below is the result set of the corresponding `run_query` call
in `app.py`, as a list of rows.  All are parameterised by the date-filter
predicate `pred`; the dashboard instantiates `pred := orderMatches r now`
for the selected `DateRange`. -/

/-- KPI query `revenue_df`: one row,
`SELECT SUM(p.price * o.quantity) AS total_revenue FROM orders o JOIN
products p ... WHERE 1=1 {date_filter}`. -/
def revenue_df (db : DB) (pred : Order → Bool) : List (Option ℚ) :=
  [sqlSUM ((joinOP db pred).map lineValue)]

/-- KPI query `orders_df`: one row,
`SELECT COUNT(DISTINCT o.order_id) AS total_orders FROM orders o
WHERE 1=1 {date_filter}` (no join). -/
def orders_df (db : DB) (pred : Order → Bool) : List ℕ :=
  [countDistinct ((db.orders.filter pred).map (·.order_id))]

/-- KPI query `customers_df`: one row,
`SELECT COUNT(DISTINCT o.customer_id) AS total_customers FROM orders o
WHERE 1=1 {date_filter}`. -/
def customers_df (db : DB) (pred : Order → Bool) : List ℕ :=
  [countDistinct ((db.orders.filter pred).map (·.customer_id))]

/-- The inner subquery of `aov_df`: per-order totals
`SELECT o.order_id, SUM(p.price * o.quantity) AS order_total ... GROUP BY
o.order_id`. -/
def orderTotals (db : DB) (pred : Order → Bool) : List (ℕ × ℚ) :=
  (sqlGroup (joinOP db pred) fun r => r.1.order_id).map
    fun g => (g.1, (g.2.map lineValue).sum)

/-- KPI query `aov_df`: one row, `SELECT AVG(order_total) FROM (...)`. -/
def aov_df (db : DB) (pred : Order → Bool) : List (Option ℚ) :=
  [sqlAVG ((orderTotals db pred).map (·.2))]

/-- `strftime('%Y-%m', order_date)`: the calendar month of a date.  With
dates modelled as day numbers, the month is abstracted as an
order-preserving bucketing into 30-day blocks (`Int.fdiv`). -/
def monthOf (d : ℤ) : ℤ :=
  d.fdiv 30

/-- One row of `monthly_df`. -/
structure MonthlyRow where
  month : ℤ
  monthly_revenue : ℚ
  monthly_orders : ℕ
deriving Repr, DecidableEq

/-- Chart query `monthly_df`: revenue and distinct orders per month,
`GROUP BY month ORDER BY month`. -/
def monthly_df (db : DB) (pred : Order → Bool) : List MonthlyRow :=
  ((sqlGroup (joinOP db pred) fun r => monthOf r.1.order_date).map
      fun g =>
        MonthlyRow.mk g.1 ((g.2.map lineValue).sum)
          (countDistinct (g.2.map fun r => r.1.order_id))).mergeSort
    fun a b => decide (a.month ≤ b.month)

/-- One row of `top_products_df`. -/
structure TopProductRow where
  product_name : String
  total_sold : ℕ
  total_revenue : ℚ
deriving Repr, DecidableEq

/-- Chart query `top_products_df`: units and revenue per product name,
`GROUP BY p.product_name ORDER BY total_sold DESC LIMIT 5`. -/
def top_products_df (db : DB) (pred : Order → Bool) : List TopProductRow :=
  (((sqlGroup (joinOP db pred) fun r => r.2.product_name).map
        fun g =>
          TopProductRow.mk g.1 ((g.2.map fun r => r.1.quantity).sum)
            ((g.2.map lineValue).sum)).mergeSort
      fun a b => decide (b.total_sold ≤ a.total_sold)).take 5

/-- One row of `country_df`. -/
structure CountryRow where
  country : String
  revenue : ℚ
  customers : ℕ
  orders : ℕ
deriving Repr, DecidableEq

/-- Chart query `country_df`: revenue, distinct customers and distinct
orders per country, `GROUP BY c.country ORDER BY revenue DESC LIMIT 10`. -/
def country_df (db : DB) (pred : Order → Bool) : List CountryRow :=
  (((sqlGroup (joinOCP db pred) fun r => r.2.1.country).map
        fun g =>
          CountryRow.mk g.1 ((g.2.map lineValue3).sum)
            (countDistinct (g.2.map fun r => r.1.customer_id))
            (countDistinct (g.2.map fun r => r.1.order_id))).mergeSort
      fun a b => decide (b.revenue ≤ a.revenue)).take 10

/-- The `CASE` expression of `customer_segments_df`:
`WHEN total_spent >= 10000 THEN 'VIP' WHEN total_spent >= 5000 THEN
'Premium' WHEN total_spent >= 1000 THEN 'Regular' ELSE 'New'`. -/
def segmentOf (total_spent : ℚ) : String :=
  if total_spent ≥ 10000 then "VIP"
  else if total_spent ≥ 5000 then "Premium"
  else if total_spent ≥ 1000 then "Regular"
  else "New"

/-- The inner subquery `customer_totals` of `customer_segments_df`:
`SELECT c.customer_id, SUM(p.price * o.quantity) AS total_spent ...
GROUP BY c.customer_id`. -/
def customer_totals (db : DB) (pred : Order → Bool) : List (ℕ × ℚ) :=
  (sqlGroup (joinOCP db pred) fun r => r.1.customer_id).map
    fun g => (g.1, (g.2.map lineValue3).sum)

/-- One row of `customer_segments_df`. -/
structure SegmentRow where
  segment : String
  customer_count : ℕ
  avg_spending : ℚ
deriving Repr, DecidableEq

/-- Chart query `customer_segments_df`: `COUNT(*)` and `AVG(total_spent)`
per segment, `GROUP BY segment ORDER BY avg_spending DESC`. -/
def customer_segments_df (db : DB) (pred : Order → Bool) : List SegmentRow :=
  ((sqlGroup (customer_totals db pred) fun ct => segmentOf ct.2).map
      fun g =>
        SegmentRow.mk g.1 g.2.length
          ((g.2.map (·.2)).sum / g.2.length)).mergeSort
    fun a b => decide (b.avg_spending ≤ a.avg_spending)

/-- One row of `top_customers_df`. -/
structure TopCustomerRow where
  name : String
  email : String
  country : String
  total_orders : ℕ
  total_items : ℕ
  total_spent : ℚ
  last_order_date : Option ℤ
deriving Repr, DecidableEq

/-- Table query `top_customers_df`: per customer, `COUNT(o.order_id)`,
`SUM(o.quantity)`, `SUM(p.price * o.quantity)`, `MAX(o.order_date)`,
`GROUP BY c.customer_id, c.name, c.email, c.country ORDER BY total_spent
DESC LIMIT 10`. -/
def top_customers_df (db : DB) (pred : Order → Bool) : List TopCustomerRow :=
  (((sqlGroup (joinOCP db pred) fun r => r.2.1).map
        fun g =>
          TopCustomerRow.mk g.1.name g.1.email g.1.country g.2.length
            ((g.2.map fun r => r.1.quantity).sum)
            ((g.2.map lineValue3).sum)
            ((g.2.map fun r => r.1.order_date).max?)).mergeSort
      fun a b => decide (b.total_spent ≤ a.total_spent)).take 10

/-- One row of `product_performance_df`. -/
structure PPRow where
  product_name : String
  category : String
  price : ℚ
  units_sold : ℕ
  total_revenue : ℚ
  unique_customers : ℕ
  avg_selling_price : Option ℚ
deriving Repr, DecidableEq

/-- Table query `product_performance_df`: per product, units, revenue,
distinct customers, and
`ROUND(SUM(p.price * o.quantity) * 1.0 / SUM(o.quantity), 2) AS
avg_selling_price`, `GROUP BY p.product_id, p.product_name, p.category,
p.price ORDER BY total_revenue DESC`.  (The group key lists every field of
a product row, so grouping is by the product row itself.) -/
def product_performance_df (db : DB) (pred : Order → Bool) : List PPRow :=
  ((sqlGroup (joinOP db pred) fun r => r.2).map
      fun g =>
        let units : ℕ := (g.2.map fun r => r.1.quantity).sum
        let rev : ℚ := (g.2.map lineValue).sum
        PPRow.mk g.1.product_name g.1.category g.1.price units rev
          (countDistinct (g.2.map fun r => r.1.customer_id))
          (sqliteRound2 (sqlDiv rev units))).mergeSort
    fun a b => decide (b.total_revenue ≤ a.total_revenue)

/-- One row of `recent_orders_df`. -/
structure RecentOrderRow where
  order_id : ℕ
  order_date : ℤ
  customer_name : String
  product_name : String
  quantity : ℕ
  price : ℚ
  order_value : ℚ
deriving Repr, DecidableEq

/-- Table query `recent_orders_df`: the joined order lines,
`ORDER BY o.order_date DESC LIMIT 20`. -/
def recent_orders_df (db : DB) (pred : Order → Bool) : List RecentOrderRow :=
  (((joinOCP db pred).map fun r =>
        RecentOrderRow.mk r.1.order_id r.1.order_date r.2.1.name
          r.2.2.product_name r.1.quantity r.2.2.price
          (r.2.2.price * r.1.quantity)).mergeSort
      fun a b => decide (b.order_date ≤ a.order_date)).take 20

/-! ## KPI extraction and rendering (lines 157–187 of `app.py`)

```python
total_revenue = revenue_df['total_revenue'].iloc[0] if not revenue_df.empty else 0
st.metric(..., value=format_currency(total_revenue), ...)
```
and likewise for the other three KPIs. -/

/-- `total_revenue` as read off `revenue_df` (a missing row falls back to
the number `0`). -/
def total_revenue (db : DB) (pred : Order → Bool) : Option ℚ :=
  match revenue_df db pred with
  | [] => some 0
  | v :: _ => v

/-- The string shown on the "Total Revenue" metric. -/
def kpiRevenueText (db : DB) (pred : Order → Bool) : String :=
  format_currency (total_revenue db pred)

/-- `total_orders` as read off `orders_df`. -/
def total_orders (db : DB) (pred : Order → Bool) : ℕ :=
  match orders_df db pred with
  | [] => 0
  | v :: _ => v

/-- The string shown on the "Total Orders" metric (raises like
`format_number` would; the count is never `None`). -/
def kpiOrdersText (db : DB) (pred : Order → Bool) : Except String String :=
  format_number (some (total_orders db pred))

/-- `total_customers` as read off `customers_df`. -/
def total_customers (db : DB) (pred : Order → Bool) : ℕ :=
  match customers_df db pred with
  | [] => 0
  | v :: _ => v

/-- The string shown on the "Active Customers" metric. -/
def kpiCustomersText (db : DB) (pred : Order → Bool) : Except String String :=
  format_number (some (total_customers db pred))

/-- `avg_order_value` as read off `aov_df`. -/
def avg_order_value (db : DB) (pred : Order → Bool) : Option ℚ :=
  match aov_df db pred with
  | [] => some 0
  | v :: _ => v

/-- The string shown on the "Avg Order Value" metric. -/
def kpiAovText (db : DB) (pred : Order → Bool) : String :=
  format_currency (avg_order_value db pred)

/-- Total revenue over the matching joined order lines (the value inside
`revenue_df`'s single row whenever any line matches). -/
def revenueSum (db : DB) (pred : Order → Bool) : ℚ :=
  ((joinOP db pred).map lineValue).sum

/-! ## Concrete sample data (used to instantiate general theorems) -/

/-- A small populated database: two customers, two products, three orders
(order dates are day numbers). -/
def sampleDB : DB where
  customers := [⟨1, "Asha", "asha@example.com", "India"⟩,
                ⟨2, "Ben", "ben@example.com", "USA"⟩]
  products := [⟨1, "Laptop", "Electronics", 100⟩,
               ⟨2, "Mouse", "Electronics", 50⟩]
  orders := [⟨1, 1, 1, 2, 10⟩, ⟨2, 1, 2, 1, 40⟩, ⟨3, 2, 1, 1, 95⟩]

/-- A database whose `orders` table is empty but whose reference tables are
populated. -/
def noOrdersDB : DB where
  customers := [⟨1, "Asha", "asha@example.com", "India"⟩]
  products := [⟨1, "Laptop", "Electronics", 100⟩]
  orders := []

/-- A minimal database with one customer, one product and one order. -/
def oneProductDB : DB where
  customers := [⟨1, "Asha", "asha@example.com", "India"⟩]
  products := [⟨1, "Laptop", "Electronics", 100⟩]
  orders := [⟨1, 1, 1, 2, 10⟩]

/-- An execution oracle on which every query fails, as when `ecommerce.db`
is missing a table. -/
def failingExec : String → Except String (List ℕ) :=
  fun _ => .error "no such table: orders"

/-- The rendered text of the revenue KPI query, used as a concrete cache
key. -/
def revenueQueryText : String :=
  "SELECT SUM(p.price * o.quantity) AS total_revenue FROM orders o JOIN products p ON o.product_id = p.product_id WHERE 1=1 ;"

/-! ## General lemmas -/

/-- `Batteries.Rat.floor` agrees with the `Int.floor` of the order
structure. -/
lemma ratFloor_eq_floor (q : ℚ) : q.floor = ⌊q⌋ :=
  (Rat.floor_def' q).trans Rat.floor_def.symm

/-- Rounding an integral value changes nothing. -/
lemma pyRound0_intCast (n : ℤ) : pyRound0 ((n : ℤ) : ℚ) = n := by
  unfold pyRound0
  rw [ratFloor_eq_floor, Int.floor_intCast]
  norm_num

/-- `format_currency` on a nonnegative integral amount: currency symbol
plus grouped digits. -/
lemma format_currency_intCast (n : ℤ) (h : 0 ≤ n) :
    format_currency (some ((n : ℤ) : ℚ)) = "₹" ++ groupDigits n.natAbs := by
  simp [format_currency, pyRound0_intCast, not_lt.mpr h]

/-- Splitting one fiber sum over a `cons`. -/
lemma fiber_sum_cons {M κ α : Type} [AddCommMonoid M] [DecidableEq κ]
    (key : α → κ) (val : α → M) (a : α) (t : List α) (k : κ) :
    ((((a :: t).filter fun x => decide (key x = k)).map val).sum) =
      (if key a = k then val a else 0) +
        (((t.filter fun x => decide (key x = k)).map val).sum) := by
  by_cases h : key a = k <;> simp [List.filter_cons, h]

/-- Fibers over keys avoiding `key a` do not see the new head. -/
lemma sum_fibers_cons_of_not_mem {M κ α : Type} [AddCommMonoid M]
    [DecidableEq κ] (key : α → κ) (val : α → M) (a : α) (t : List α)
    (ks : List κ) (hka : key a ∉ ks) :
    (ks.map fun k => (((a :: t).filter fun x => decide (key x = k)).map val).sum).sum =
      (ks.map fun k => ((t.filter fun x => decide (key x = k)).map val).sum).sum := by
  refine congrArg List.sum (List.map_congr_left fun k hk => ?_)
  have hne : key a ≠ k := fun h => hka (h ▸ hk)
  rw [fiber_sum_cons, if_neg hne, zero_add]

/-- Adding a head whose key occurs once among `ks` adds exactly `val a` to
the total of the fiber sums. -/
lemma sum_fibers_cons_of_mem {M κ α : Type} [AddCommMonoid M] [DecidableEq κ]
    (key : α → κ) (val : α → M) (a : α) (t : List α) (ks : List κ)
    (hnd : ks.Nodup) (hmem : key a ∈ ks) :
    (ks.map fun k => (((a :: t).filter fun x => decide (key x = k)).map val).sum).sum =
      val a + (ks.map fun k => ((t.filter fun x => decide (key x = k)).map val).sum).sum := by
  induction ks with
  | nil => cases hmem
  | cons k ks ih =>
      rcases List.mem_cons.mp hmem with h | h
      · subst h
        have hka : key a ∉ ks := (List.nodup_cons.mp hnd).1
        rw [List.map_cons, List.sum_cons, List.map_cons, List.sum_cons,
          fiber_sum_cons, if_pos rfl,
          sum_fibers_cons_of_not_mem key val a t ks hka, add_assoc]
      · have hk : key a ≠ k := fun hh => (List.nodup_cons.mp hnd).1 (hh ▸ h)
        rw [List.map_cons, List.sum_cons, List.map_cons, List.sum_cons,
          fiber_sum_cons, if_neg hk, zero_add,
          ih (List.nodup_cons.mp hnd).2 h, add_left_comm]

/-- Grouping partitions a sum: summing each `GROUP BY` fiber and then the
fibers equals summing the whole table. -/
lemma sum_dedup_fibers {M κ α : Type} [AddCommMonoid M] [DecidableEq κ]
    (l : List α) (key : α → κ) (val : α → M) :
    ((l.map key).dedup.map fun k =>
        ((l.filter fun x => decide (key x = k)).map val).sum).sum =
      (l.map val).sum := by
  induction l with
  | nil => rfl
  | cons a t ih =>
      by_cases hmem : key a ∈ t.map key
      · rw [List.map_cons, List.dedup_cons_of_mem hmem,
          sum_fibers_cons_of_mem key val a t _ (List.nodup_dedup _)
            (List.mem_dedup.mpr hmem), ih]
        simp
      · rw [List.map_cons, List.dedup_cons_of_not_mem hmem]
        rw [List.map_cons, List.sum_cons]
        have h0 : t.filter (fun x => decide (key x = key a)) = [] := by
          refine List.filter_eq_nil_iff.mpr fun x hx => ?_
          simp only [decide_eq_true_eq]
          exact fun hkey => hmem (hkey ▸ List.mem_map_of_mem key hx)
        rw [fiber_sum_cons, if_pos rfl, h0,
          sum_fibers_cons_of_not_mem key val a t _
            (fun h => hmem (List.mem_dedup.mp h)), ih]
        simp

/-- Grouping partitions the row count: the fiber sizes sum to the table
size. -/
lemma sum_dedup_fiber_lengths {κ α : Type} [DecidableEq κ] (l : List α)
    (key : α → κ) :
    ((l.map key).dedup.map fun k =>
        (l.filter fun x => decide (key x = k)).length).sum = l.length := by
  have h := sum_dedup_fibers l key fun _ => (1 : ℕ)
  simpa using h

/-- A cache hit returns the stored result, leaves the cache unchanged, and
does not execute or report. -/
lemma run_query_hit {df : Type} (ex : String → Except String df) (e : df)
    (c : List (String × df)) (q : String) (v : df) (h : c.lookup q = some v) :
    run_query ex e c q = ⟨v, c, false, none⟩ := by
  unfold run_query; rw [h]

/-- After any `run_query` call, the cache maps the query just asked to the
result just returned. -/
lemma run_query_cache_lookup_self {df : Type} (ex : String → Except String df)
    (e : df) (c : List (String × df)) (q : String) :
    ((run_query ex e c q).cache).lookup q = some ((run_query ex e c q).result) := by
  unfold run_query
  cases hc : c.lookup q with
  | some r => simpa using hc
  | none =>
      cases hx : ex q with
      | ok r => simp [List.lookup]
      | error err => simp [List.lookup]

/-- `run_query` never drops a cache entry (the cache only grows). -/
lemma run_query_preserves_lookup {df : Type} (ex : String → Except String df)
    (e : df) (c : List (String × df)) (q q' : String) (v : df)
    (hc : c.lookup q = some v) :
    ((run_query ex e c q').cache).lookup q = some v := by
  unfold run_query
  cases hq' : c.lookup q' with
  | some r => simpa using hc
  | none =>
      have hne : (q == q') = false := by
        refine beq_eq_false_iff_ne.mpr ?_
        rintro rfl; rw [hc] at hq'; cases hq'
      cases hx : ex q' with
      | ok r => simpa [List.lookup, hne] using hc
      | error err => simpa [List.lookup, hne] using hc

/-- A whole batch of further calls never drops a cache entry. -/
lemma runAll_preserves_lookup {df : Type} (ex : String → Except String df)
    (e : df) (q : String) (v : df) (qs : List String) :
    ∀ c : List (String × df), c.lookup q = some v →
      (runAll ex e c qs).lookup q = some v := by
  induction qs with
  | nil => exact fun c hc => hc
  | cons q' qs ih =>
      exact fun c hc => ih _ (run_query_preserves_lookup ex e c q q' v hc)

/-! ## The claims -/

/-- C4: after `run_query` has been called once with a query string, every
subsequent call with the byte-identical string — regardless of which other
queries ran in between — returns the first call's result from the cache,
without executing against the database and without reporting an error. -/
theorem run_query_cache_hit_on_repeat {df : Type}
    (ex : String → Except String df) (e : df) (c : List (String × df))
    (q : String) (qs : List String) :
    (run_query ex e (runAll ex e (run_query ex e c q).cache qs) q).result
        = (run_query ex e c q).result ∧
    (run_query ex e (runAll ex e (run_query ex e c q).cache qs) q).executed
        = false ∧
    (run_query ex e (runAll ex e (run_query ex e c q).cache qs) q).reported
        = none := by
  have h1 := run_query_cache_lookup_self ex e c q
  have h2 := runAll_preserves_lookup ex e q _ qs _ h1
  rw [run_query_hit ex e _ q _ h2]
  exact ⟨rfl, rfl, rfl⟩

/-- C1 (counterexample): on a failing query the claim "the failed
execution's result is not stored in the cache, so a later call with the
same query string executes against the database again" is false: with an
always-failing executor and an empty cache, after the first call the cache
*does* hold an entry for the query, and the second call does *not*
execute. -/
theorem run_query_failure_claim_counterexample :
    ¬(((run_query failingExec [] [] revenueQueryText).cache).lookup
          revenueQueryText = none ∧
      (run_query failingExec []
          (run_query failingExec [] [] revenueQueryText).cache
          revenueQueryText).executed = true) := by
  decide

/-- C1 (amended): on a query execution failure (with no prior cache entry
for the query), `run_query` reports "Database error: ..." to the caller and
returns the empty result set — but the empty result *is* stored in the
cache, so a later call with the same query string is served from the cache
and does not execute against the database again. -/
theorem run_query_failure_cached_behavior {df : Type}
    (ex : String → Except String df) (e : df) (c : List (String × df))
    (q err : String) (hq : c.lookup q = none) (hx : ex q = .error err) :
    (run_query ex e c q).result = e ∧
    (run_query ex e c q).reported = some ("Database error: " ++ err) ∧
    ((run_query ex e c q).cache).lookup q = some e ∧
    (run_query ex e (run_query ex e c q).cache q).executed = false := by
  have hrun : run_query ex e c q
      = ⟨e, (q, e) :: c, true, some ("Database error: " ++ err)⟩ := by
    unfold run_query; rw [hq, hx]
  rw [hrun]
  refine ⟨rfl, rfl, by simp [List.lookup], ?_⟩
  rw [run_query_hit ex e _ q e (by simp [List.lookup])]

/-- C1 (witness): the amended failure behaviour at a concrete failing
executor, query and empty cache. -/
theorem run_query_failure_cached_behavior_witness :
    (run_query failingExec [] [] revenueQueryText).result = [] ∧
    (run_query failingExec [] [] revenueQueryText).reported
        = some ("Database error: " ++ "no such table: orders") ∧
    ((run_query failingExec [] [] revenueQueryText).cache).lookup
        revenueQueryText = some [] ∧
    (run_query failingExec []
        (run_query failingExec [] [] revenueQueryText).cache
        revenueQueryText).executed = false :=
  run_query_failure_cached_behavior failingExec [] [] revenueQueryText
    "no such table: orders" rfl rfl

/-- C3 (counterexample): `format_number` applied to `None` does not return
a fallback string — it raises (`None >= 1000000` is a `TypeError`), so the
claim "never raises an exception" is false for `format_number(None)`. -/
theorem format_number_none_raises :
    format_number none
      = .error "TypeError: unsupported comparison between NoneType and int" :=
  rfl

/-- C3 (amended): the formatting edge cases are handled by defined
fallbacks — `format_currency(None) = format_currency(0) = "₹0"` and
`format_number(0) = "0"` — except that `format_number(None)` raises a
`TypeError` instead of returning a fallback. -/
theorem formatting_edge_cases :
    format_currency none = "₹0" ∧
    format_currency (some 0) = "₹0" ∧
    format_number (some 0) = .ok "0" ∧
    format_number none
      = .error "TypeError: unsupported comparison between NoneType and int" := by
  refine ⟨rfl, ?_, rfl, rfl⟩
  have h := format_currency_intCast 0 le_rfl
  have h2 : (((0 : ℤ) : ℚ)) = (0 : ℚ) := by norm_num
  rw [h2] at h
  rw [h]
  decide

/-- C9: `format_currency` maps both `None` and `0` to the zero-display
string `"₹0"`, and `1234567` to the grouped-thousands integer string
`"₹1,234,567"` (fixed `₹` symbol, no decimals). -/
theorem format_currency_values :
    format_currency none = "₹0" ∧
    format_currency (some 0) = "₹0" ∧
    format_currency (some 1234567) = "₹1,234,567" := by
  refine ⟨rfl, ?_, ?_⟩
  · have h := format_currency_intCast 0 le_rfl
    have h2 : (((0 : ℤ) : ℚ)) = (0 : ℚ) := by norm_num
    rw [h2] at h
    rw [h]
    decide
  · have h := format_currency_intCast 1234567 (by norm_num)
    have h2 : (((1234567 : ℤ) : ℚ)) = (1234567 : ℚ) := by norm_num
    rw [h2] at h
    rw [h]
    decide

/-- C10: `format_number` renders `x ≥ 1,000,000` as the one-decimal
rendering of `x/1000000` with suffix `M`, `1,000 ≤ x < 1,000,000` as the
one-decimal rendering of `x/1000` with suffix `K`, and anything smaller as
the plain integer; in particular `999 ↦ "999"`, `1500 ↦ "1.5K"`,
`2300000 ↦ "2.3M"`. -/
theorem format_number_magnitude :
    (∀ n : ℤ, 1000000 ≤ n →
        format_number (some n) = .ok (fmtOneDec n 1000000 ++ "M")) ∧
    (∀ n : ℤ, 1000 ≤ n → n < 1000000 →
        format_number (some n) = .ok (fmtOneDec n 1000 ++ "K")) ∧
    (∀ n : ℤ, n < 1000 → format_number (some n) = .ok (toString n)) ∧
    format_number (some 999) = .ok "999" ∧
    format_number (some 1500) = .ok "1.5K" ∧
    format_number (some 2300000) = .ok "2.3M" := by
  refine ⟨?_, ?_, ?_, rfl, rfl, rfl⟩
  · intro n h
    simp [format_number, ge_iff_le, h]
  · intro n h1 h2
    have hn : ¬(n ≥ 1000000) := by omega
    simp [format_number, hn, ge_iff_le, h1]
  · intro n h
    have h1 : ¬(n ≥ 1000000) := by omega
    have h2 : ¬(n ≥ 1000) := by omega
    simp [format_number, h1, h2]

/-- C10 (witness): the `M` branch applied at the concrete input
`2,500,000`. -/
theorem format_number_magnitude_witness :
    (1000000 : ℤ) ≤ 2500000 ∧ format_number (some 2500000) = .ok "2.5M" := by
  refine ⟨by norm_num, ?_⟩
  rw [format_number_magnitude.1 2500000 (by norm_num)]
  rfl

/-- Filtering with the "All Time" predicate keeps every order row. -/
lemma filter_allTime (l : List Order) (now : ℤ) :
    l.filter (orderMatches .allTime now) = l := by
  simp [orderMatches, dateCutoff]

/-- `joinOP` is monotone in the date predicate. -/
lemma joinOP_mono (db : DB) (p q : Order → Bool)
    (himp : ∀ o, p o = true → q o = true) : joinOP db p ⊆ joinOP db q := by
  intro r hr
  unfold joinOP at hr ⊢
  obtain ⟨o, ho, hm⟩ := List.mem_flatMap.mp hr
  exact List.mem_flatMap.mpr
    ⟨o, List.mem_filter.mpr
        ⟨(List.mem_filter.mp ho).1, himp o (List.mem_filter.mp ho).2⟩, hm⟩

/-- `joinOCP` is monotone in the date predicate. -/
lemma joinOCP_mono (db : DB) (p q : Order → Bool)
    (himp : ∀ o, p o = true → q o = true) : joinOCP db p ⊆ joinOCP db q := by
  intro r hr
  unfold joinOCP at hr ⊢
  obtain ⟨o, ho, hm⟩ := List.mem_flatMap.mp hr
  exact List.mem_flatMap.mpr
    ⟨o, List.mem_filter.mpr
        ⟨(List.mem_filter.mp ho).1, himp o (List.mem_filter.mp ho).2⟩, hm⟩

/-- C2 (counterexample): against the empty database the revenue aggregate's
result set is *not* empty — `SELECT SUM(...)` with no `GROUP BY` yields one
row (holding `NULL`), so the claim "the returned result set is empty" fails
for the scalar KPI aggregates. -/
theorem empty_db_scalar_row_counterexample :
    revenue_df ⟨[], [], []⟩ (orderMatches .allTime 0) ≠ [] := by
  simp [revenue_df]

/-- C2 (amended): when the orders table is empty, each *grouped* aggregate
query returns an empty result set, while the scalar KPI aggregates return
exactly one row holding `NULL` (`SUM`, `AVG`) or `0` (`COUNT`); no fault is
raised, and every KPI renders its zero-display fallback (`"₹0"` / `"0"`). -/
theorem empty_orders_aggregates (db : DB) (r : DateRange) (now : ℤ)
    (h : db.orders = []) :
    revenue_df db (orderMatches r now) = [none] ∧
    orders_df db (orderMatches r now) = [0] ∧
    customers_df db (orderMatches r now) = [0] ∧
    aov_df db (orderMatches r now) = [none] ∧
    monthly_df db (orderMatches r now) = [] ∧
    top_products_df db (orderMatches r now) = [] ∧
    country_df db (orderMatches r now) = [] ∧
    customer_segments_df db (orderMatches r now) = [] ∧
    top_customers_df db (orderMatches r now) = [] ∧
    product_performance_df db (orderMatches r now) = [] ∧
    recent_orders_df db (orderMatches r now) = [] ∧
    kpiRevenueText db (orderMatches r now) = "₹0" ∧
    kpiOrdersText db (orderMatches r now) = .ok "0" ∧
    kpiCustomersText db (orderMatches r now) = .ok "0" ∧
    kpiAovText db (orderMatches r now) = "₹0" := by
  have hOP : joinOP db (orderMatches r now) = [] := by simp [joinOP, h]
  have hOCP : joinOCP db (orderMatches r now) = [] := by simp [joinOCP, h]
  refine ⟨by simp [revenue_df, sqlSUM, hOP],
    by simp [orders_df, countDistinct, h],
    by simp [customers_df, countDistinct, h],
    by simp [aov_df, orderTotals, sqlGroup, sqlAVG, hOP],
    by simp [monthly_df, sqlGroup, hOP],
    by simp [top_products_df, sqlGroup, hOP],
    by simp [country_df, sqlGroup, hOCP],
    by simp [customer_segments_df, customer_totals, sqlGroup, hOCP],
    by simp [top_customers_df, sqlGroup, hOCP],
    by simp [product_performance_df, sqlGroup, hOP],
    by simp [recent_orders_df, hOCP],
    by simp [kpiRevenueText, total_revenue, revenue_df, sqlSUM, hOP,
      format_currency],
    ?_, ?_,
    by simp [kpiAovText, avg_order_value, aov_df, orderTotals, sqlGroup,
      sqlAVG, hOP, format_currency]⟩
  · have ho : total_orders db (orderMatches r now) = 0 := by
      simp [total_orders, orders_df, countDistinct, h]
    show format_number (some (total_orders db (orderMatches r now) : ℤ)) = .ok "0"
    rw [ho]
    rfl
  · have hc : total_customers db (orderMatches r now) = 0 := by
      simp [total_customers, customers_df, countDistinct, h]
    show format_number (some (total_customers db (orderMatches r now) : ℤ)) = .ok "0"
    rw [hc]
    rfl

/-- C2 (witness): the amended statement at a concrete database whose
reference tables are populated but whose orders table is empty. -/
theorem empty_orders_aggregates_witness :
    revenue_df noOrdersDB (orderMatches .allTime 0) = [none] ∧
    orders_df noOrdersDB (orderMatches .allTime 0) = [0] ∧
    customers_df noOrdersDB (orderMatches .allTime 0) = [0] ∧
    aov_df noOrdersDB (orderMatches .allTime 0) = [none] ∧
    monthly_df noOrdersDB (orderMatches .allTime 0) = [] ∧
    top_products_df noOrdersDB (orderMatches .allTime 0) = [] ∧
    country_df noOrdersDB (orderMatches .allTime 0) = [] ∧
    customer_segments_df noOrdersDB (orderMatches .allTime 0) = [] ∧
    top_customers_df noOrdersDB (orderMatches .allTime 0) = [] ∧
    product_performance_df noOrdersDB (orderMatches .allTime 0) = [] ∧
    recent_orders_df noOrdersDB (orderMatches .allTime 0) = [] ∧
    kpiRevenueText noOrdersDB (orderMatches .allTime 0) = "₹0" ∧
    kpiOrdersText noOrdersDB (orderMatches .allTime 0) = .ok "0" ∧
    kpiCustomersText noOrdersDB (orderMatches .allTime 0) = .ok "0" ∧
    kpiAovText noOrdersDB (orderMatches .allTime 0) = "₹0" :=
  empty_orders_aggregates noOrdersDB .allTime 0 rfl

/-- C6: the date-range selections only add a lower bound on `order_date`,
so the order rows (and joined rows) contributing under "Last 30 Days" are a
subset of those contributing under "All Time", for any database state. -/
theorem date_filter_monotone :
    (∀ (db : DB) (now : ℤ) (o : Order),
        o ∈ db.orders.filter (orderMatches .last30Days now) →
        o ∈ db.orders.filter (orderMatches .allTime now)) ∧
    (∀ (db : DB) (now : ℤ) (pr : Order × Product),
        pr ∈ joinOP db (orderMatches .last30Days now) →
        pr ∈ joinOP db (orderMatches .allTime now)) ∧
    (∀ (db : DB) (now : ℤ) (rcp : Order × Customer × Product),
        rcp ∈ joinOCP db (orderMatches .last30Days now) →
        rcp ∈ joinOCP db (orderMatches .allTime now)) ∧
    (∀ (r : DateRange) (now : ℤ) (o : Order),
        orderMatches r now o = true ↔
          ∀ c ∈ dateCutoff r now, c ≤ o.order_date) := by
  refine ⟨?_, ?_, ?_, ?_⟩
  · intro db now o hmem
    rw [filter_allTime]
    exact (List.mem_filter.mp hmem).1
  · intro db now pr hmem
    exact joinOP_mono db _ _ (fun o _ => rfl) hmem
  · intro db now rcp hmem
    exact joinOCP_mono db _ _ (fun o _ => rfl) hmem
  · intro r now o
    cases r <;> simp [orderMatches, dateCutoff]

/-- C6 (witness): a concrete order within the last 30 days contributes to
the "All Time" result set as well. -/
theorem date_filter_monotone_witness :
    (⟨3, 2, 1, 1, 95⟩ : Order) ∈
        sampleDB.orders.filter (orderMatches .last30Days 100) ∧
    (⟨3, 2, 1, 1, 95⟩ : Order) ∈
        sampleDB.orders.filter (orderMatches .allTime 100) :=
  ⟨by decide, date_filter_monotone.1 sampleDB 100 ⟨3, 2, 1, 1, 95⟩ (by decide)⟩

/-- C8: in every row of the product-performance result, when any units were
sold the average selling price is the revenue divided by the units, rounded
to two decimals; when `units_sold = 0` it is the defined `NULL` sentinel
(SQLite division by zero), not an error. -/
theorem avg_selling_price_spec (db : DB) (pred : Order → Bool) (row : PPRow)
    (hmem : row ∈ product_performance_df db pred) :
    (0 < row.units_sold →
        row.avg_selling_price
          = some (round2 (row.total_revenue / (row.units_sold : ℚ)))) ∧
    (row.units_sold = 0 → row.avg_selling_price = none) := by
  unfold product_performance_df at hmem
  rw [(List.mergeSort_perm _ _).mem_iff] at hmem
  obtain ⟨g, hg, hrow⟩ := List.mem_map.mp hmem
  subst hrow
  constructor
  · intro hpos
    have hne : (((g.2.map fun r => r.1.quantity).sum : ℕ) : ℚ) ≠ 0 := by
      exact_mod_cast Nat.pos_iff_ne_zero.mp hpos
    show sqliteRound2 (sqlDiv ((g.2.map lineValue).sum)
        (((g.2.map fun r => r.1.quantity).sum : ℕ) : ℚ)) = _
    unfold sqlDiv
    rw [if_neg hne]
    rfl
  · intro h0
    simp only at h0
    simp [sqliteRound2, sqlDiv, h0]

/-- C8 (witness): the positive-units case at a concrete one-product
database (2 units, revenue 200, average selling price 100). -/
theorem avg_selling_price_spec_witness :
    PPRow.mk "Laptop" "Electronics" 100 2 200 1 (some 100) ∈
        product_performance_df oneProductDB (orderMatches .allTime 100) ∧
    (0 < (PPRow.mk "Laptop" "Electronics" 100 2 200 1
            (some 100)).units_sold →
        (PPRow.mk "Laptop" "Electronics" 100 2 200 1
            (some 100)).avg_selling_price
          = some (round2 ((PPRow.mk "Laptop" "Electronics" 100 2 200 1
              (some 100)).total_revenue
              / ((PPRow.mk "Laptop" "Electronics" 100 2 200 1
                  (some 100)).units_sold : ℚ)))) ∧
    ((PPRow.mk "Laptop" "Electronics" 100 2 200 1 (some 100)).units_sold = 0 →
        (PPRow.mk "Laptop" "Electronics" 100 2 200 1
            (some 100)).avg_selling_price = none) := by
  have hmem : PPRow.mk "Laptop" "Electronics" 100 2 200 1 (some 100) ∈
      product_performance_df oneProductDB (orderMatches .allTime 100) := by
    simp [product_performance_df, sqlGroup, joinOP, lineValue, orderMatches,
      dateCutoff, oneProductDB, countDistinct, sqlDiv, sqliteRound2, round2,
      Rat.floor]
    norm_num
  exact ⟨hmem, avg_selling_price_spec oneProductDB _ _ hmem⟩

/-- C7: segmentation is a partition.  Each customer with a matching order
appears under exactly one customer id in the inner `customer_totals`
subquery (no double counting); the thresholds assign each spend total to
exactly one of VIP / Premium / Regular / New; and the per-segment customer
counts sum to the number of customers with any spend. -/
theorem customer_segments_partition (db : DB) (pred : Order → Bool) :
    ((customer_totals db pred).map Prod.fst).Nodup ∧
    ((customer_segments_df db pred).map (·.customer_count)).sum
        = (customer_totals db pred).length ∧
    (∀ t : ℚ,
      (segmentOf t = "VIP" ↔ 10000 ≤ t) ∧
      (segmentOf t = "Premium" ↔ 5000 ≤ t ∧ t < 10000) ∧
      (segmentOf t = "Regular" ↔ 1000 ≤ t ∧ t < 5000) ∧
      (segmentOf t = "New" ↔ t < 1000)) := by
  refine ⟨?_, ?_, ?_⟩
  · have h : (customer_totals db pred).map Prod.fst
        = ((joinOCP db pred).map fun r => r.1.customer_id).dedup := by
      calc (customer_totals db pred).map Prod.fst
          = (((joinOCP db pred).map fun r => r.1.customer_id).dedup).map
              fun k => k := by
            simp only [customer_totals, sqlGroup, List.map_map]
            exact List.map_congr_left fun k hk => rfl
        _ = _ := by simp
    rw [h]
    exact List.nodup_dedup _
  · have hperm :=
      List.mergeSort_perm
        ((sqlGroup (customer_totals db pred) fun ct => segmentOf ct.2).map
          fun g => SegmentRow.mk g.1 g.2.length ((g.2.map (·.2)).sum / g.2.length))
        fun a b => decide (b.avg_spending ≤ a.avg_spending)
    have h1 : ((customer_segments_df db pred).map (·.customer_count)).sum
        = (((sqlGroup (customer_totals db pred) fun ct => segmentOf ct.2).map
            fun g => SegmentRow.mk g.1 g.2.length
              ((g.2.map (·.2)).sum / g.2.length)).map (·.customer_count)).sum :=
      (hperm.map _).sum_eq
    have h2 : (((sqlGroup (customer_totals db pred) fun ct => segmentOf ct.2).map
          fun g => SegmentRow.mk g.1 g.2.length
            ((g.2.map (·.2)).sum / g.2.length)).map (·.customer_count)).sum
        = (((customer_totals db pred).map fun ct => segmentOf ct.2).dedup.map
            fun k => ((customer_totals db pred).filter
              fun x => decide (segmentOf x.2 = k)).length).sum := by
      rw [List.map_map]
      unfold sqlGroup
      rw [List.map_map]
      exact congrArg List.sum (List.map_congr_left fun k hk => rfl)
    rw [h1, h2]
    exact sum_dedup_fiber_lengths _ _
  · intro t
    unfold segmentOf
    split_ifs with h1 h2 h3
    · exact ⟨iff_of_true rfl h1,
        iff_of_false (by decide) fun h => absurd h.2 (not_lt.mpr h1),
        iff_of_false (by decide) fun h => absurd h.2 (not_lt.mpr (by linarith)),
        iff_of_false (by decide) fun h => absurd h (not_lt.mpr (by linarith))⟩
    · exact ⟨iff_of_false (by decide) fun h => h1 h,
        iff_of_true rfl ⟨h2, not_le.mp h1⟩,
        iff_of_false (by decide) fun h => absurd h.2 (not_lt.mpr h2),
        iff_of_false (by decide) fun h => absurd h (not_lt.mpr (by linarith))⟩
    · exact ⟨iff_of_false (by decide) fun h => h1 h,
        iff_of_false (by decide) fun h => h2 h.1,
        iff_of_true rfl ⟨h3, not_le.mp h2⟩,
        iff_of_false (by decide) fun h => absurd h (not_lt.mpr h3)⟩
    · exact ⟨iff_of_false (by decide) fun h => h1 h,
        iff_of_false (by decide) fun h => h2 h.1,
        iff_of_false (by decide) fun h => h3 h.1,
        iff_of_true rfl (not_le.mp h3)⟩

/-- `SUM` over a nonempty input is the (non-NULL) sum. -/
lemma sqlSUM_of_ne_nil (l : List ℚ) (h : l ≠ []) : sqlSUM l = some l.sum := by
  cases l with
  | nil => exact absurd rfl h
  | cons a t => rfl

/-- `AVG` over a nonempty input is the (non-NULL) mean. -/
lemma sqlAVG_of_ne_nil (l : List ℚ) (h : l ≠ []) :
    sqlAVG l = some (l.sum / l.length) := by
  cases l with
  | nil => exact absurd rfl h
  | cons a t => rfl

/-- A matching order with a matching product yields a joined row. -/
lemma mem_joinOP (db : DB) (pred : Order → Bool) (o : Order) (p : Product)
    (ho : o ∈ db.orders) (hpo : pred o = true) (hp : p ∈ db.products)
    (hpid : p.product_id = o.product_id) : (o, p) ∈ joinOP db pred := by
  unfold joinOP
  refine List.mem_flatMap.mpr ⟨o, List.mem_filter.mpr ⟨ho, hpo⟩, ?_⟩
  exact List.mem_map.mpr ⟨p, List.mem_filter.mpr ⟨hp, by simp [hpid]⟩, rfl⟩

/-- Under referential integrity of the product reference, the order ids
seen by the order–product join are exactly the order ids of the matching
orders. -/
lemma joinOP_order_ids (db : DB) (pred : Order → Bool)
    (hri : ∀ o ∈ db.orders, pred o = true →
      ∃ p ∈ db.products, p.product_id = o.product_id) (i : ℕ) :
    i ∈ (joinOP db pred).map (fun r => r.1.order_id) ↔
      i ∈ (db.orders.filter pred).map (fun o => o.order_id) := by
  constructor
  · intro hi
    obtain ⟨rr, hrr, hival⟩ := List.mem_map.mp hi
    unfold joinOP at hrr
    obtain ⟨o', ho', hm⟩ := List.mem_flatMap.mp hrr
    obtain ⟨p', hp', hpr⟩ := List.mem_map.mp hm
    refine List.mem_map.mpr ⟨o', ho', ?_⟩
    rw [← hival, ← hpr]
  · intro hi
    obtain ⟨o', ho', hival⟩ := List.mem_map.mp hi
    have hfo := List.mem_filter.mp ho'
    obtain ⟨p', hp', hpid'⟩ := hri o' hfo.1 hfo.2
    exact List.mem_map.mpr ⟨(o', p'), mem_joinOP db pred o' p' hfo.1 hfo.2 hp' hpid', hival⟩

/-- C5: whenever at least one order matches the filter (and each matching
order's product exists, the schema's referential-integrity invariant), the
revenue aggregate is a single non-NULL row and the independently queried
average-order-value aggregate equals total revenue divided by the
total-distinct-orders aggregate. -/
theorem aov_equals_revenue_div_orders (db : DB) (pred : Order → Bool)
    (hri : ∀ o ∈ db.orders, pred o = true →
      ∃ p ∈ db.products, p.product_id = o.product_id)
    (hne : ∃ o ∈ db.orders, pred o = true) :
    revenue_df db pred = [some (revenueSum db pred)] ∧
    aov_df db pred
      = [some (revenueSum db pred / (total_orders db pred : ℚ))] := by
  obtain ⟨o, ho, hpo⟩ := hne
  obtain ⟨p, hp, hpid⟩ := hri o ho hpo
  have hJmem : (o, p) ∈ joinOP db pred := mem_joinOP db pred o p ho hpo hp hpid
  have hJne : joinOP db pred ≠ [] := List.ne_nil_of_mem hJmem
  have hmapne : (joinOP db pred).map lineValue ≠ [] := by
    simpa using hJne
  constructor
  · rw [revenue_df, sqlSUM_of_ne_nil _ hmapne]
    rfl
  · have htot : (orderTotals db pred).map (·.2)
        = ((joinOP db pred).map fun r => r.1.order_id).dedup.map
            fun k => (((joinOP db pred).filter
              fun x => decide (x.1.order_id = k)).map lineValue).sum := by
      rw [orderTotals]
      unfold sqlGroup
      rw [List.map_map, List.map_map]
      exact List.map_congr_left fun k hk => rfl
    have hdne : ((joinOP db pred).map fun r => r.1.order_id).dedup ≠ [] :=
      List.ne_nil_of_mem
        (List.mem_dedup.mpr (List.mem_map.mpr ⟨(o, p), hJmem, rfl⟩))
    have htne : (orderTotals db pred).map (·.2) ≠ [] := by
      rw [htot]
      simpa using hdne
    have hsum : (((joinOP db pred).map fun r => r.1.order_id).dedup.map
        fun k => (((joinOP db pred).filter
          fun x => decide (x.1.order_id = k)).map lineValue).sum).sum
        = revenueSum db pred :=
      sum_dedup_fibers (joinOP db pred) (fun r => r.1.order_id) lineValue
    have hlen : (((joinOP db pred).map fun r => r.1.order_id).dedup).length
        = (((db.orders.filter pred).map fun o => o.order_id).dedup).length := by
      rw [← List.card_toFinset, ← List.card_toFinset]
      congr 1
      ext i
      simp only [List.mem_toFinset]
      exact joinOP_order_ids db pred hri i
    have htoto : total_orders db pred
        = (((db.orders.filter pred).map fun o => o.order_id).dedup).length :=
      rfl
    rw [aov_df, sqlAVG_of_ne_nil _ htne, htot]
    rw [List.length_map, hsum, hlen, htoto]

/-- C5 (witness): the consistency identity at a concrete populated
database under the "All Time" filter (three orders, revenue 350,
average order value 350/3). -/
theorem aov_equals_revenue_div_orders_witness :
    revenue_df sampleDB (orderMatches .allTime 100)
      = [some (revenueSum sampleDB (orderMatches .allTime 100))] ∧
    aov_df sampleDB (orderMatches .allTime 100)
      = [some (revenueSum sampleDB (orderMatches .allTime 100)
          / (total_orders sampleDB (orderMatches .allTime 100) : ℚ))] :=
  aov_equals_revenue_div_orders sampleDB (orderMatches .allTime 100)
    (by decide) (by decide)

end SalesDashboard
